import Mathlib

/-!
Verification of the Proxmox vzdump backup hook script
(`usr/local/bin/vzdump-hook-script.py`).

The Python code is shallowly embedded.  Python strings are `List Char`;
`os.environ` is an association list with most-recent-binding lookup;
external collaborators (subprocess output, file contents, the monitoring
HTTP API) are explicit parameters recording their outcomes; a call to the
script's `error` helper (which prints, appends to the error log and exits
with code 666) is an `Except.error` carrying the task and context text.
-/

set_option autoImplicit false
set_option linter.unusedVariables false
set_option maxRecDepth 4000

namespace VzdumpHook

/-- Python strings, modelled as lists of characters. -/
abbrev Str := List Char

/-- A call to the script's `error(task, msg)` helper (source lines
143-153): it logs and exits with `DEFAULT_ERROR_CODE` (666). -/
structure PyError where
  task : Str
  msg : Str
  deriving DecidableEq, Repr

/-- Whitespace characters removed by Python `str.strip()`; the script
only ever strips ASCII text, so the ASCII whitespace set suffices. -/
def isPySpace (c : Char) : Bool :=
  c = ' ' || c = '\t' || c = '\n' || c = '\r' || c = '\x0b' || c = '\x0c'

/-- Python `s.strip()`: drop whitespace from both ends. -/
def pyStrip (s : Str) : Str :=
  ((s.dropWhile isPySpace).reverse.dropWhile isPySpace).reverse

/-- Python `s.strip(cs)`: drop the characters of `cs` from both ends. -/
def pyStripSet (cs : Str) (s : Str) : Str :=
  ((s.dropWhile cs.contains).reverse.dropWhile cs.contains).reverse

/-- Python `s.replace(old, new)` for a single-character `old`. -/
def pyReplaceChar (s : Str) (old : Char) (new : Str) : Str :=
  match s with
  | [] => []
  | c :: rest => (if c = old then new else [c]) ++ pyReplaceChar rest old new

/-- Python `s.lower()`; the script lowercases ASCII host names and tags. -/
def pyLower (s : Str) : Str := s.map Char.toLower

/-- Python `s.split(sep, 1)` when `sep` occurs in `s`: the text before
the first occurrence paired with the text after it; `none` when `sep`
does not occur (the `'=' in line` test). -/
def splitOnce (sep : Char) : Str → Option (Str × Str)
  | [] => none
  | c :: rest =>
    if c = sep then some ([], rest)
    else
      match splitOnce sep rest with
      | some p => some (c :: p.1, p.2)
      | none => none

/-- Python `s.replace(pat, repl)` for a general pattern (every leftmost,
non-overlapping occurrence), driven by a fuel argument; with fuel
`s.length` and a non-empty pattern the fuel never runs out.  The script
only calls this with the non-empty pattern "ping". -/
def pyReplaceFuel : Nat → Str → Str → Str → Str
  | _, s, [], _ => s
  | 0, s, _, _ => s
  | _ + 1, [], _, _ => []
  | fuel + 1, c :: rest, p :: ps, repl =>
    if (p :: ps).isPrefixOf (c :: rest) then
      repl ++ pyReplaceFuel fuel ((c :: rest).drop (p :: ps).length) (p :: ps) repl
    else
      c :: pyReplaceFuel fuel rest (p :: ps) repl

/-- Python `s.replace(pat, repl)`. -/
def pyReplace (s pat repl : Str) : Str := pyReplaceFuel s.length s pat repl

/-- Python `pat in s` (contiguous substring test). -/
def containsSub : Str → Str → Bool
  | [], pat => pat.isEmpty
  | c :: rest, pat => pat.isPrefixOf (c :: rest) || containsSub rest pat

/-- Python `s.isdigit()`.  The script's report strings are ASCII, so the
ASCII decimal digits model the check (CPython also accepts some
non-ASCII digit code points). -/
def pyIsDigit (s : Str) : Bool := !s.isEmpty && s.all Char.isDigit

/-- Process environment: an association list where the first matching
binding wins, so assignment is prepending. -/
abbrev Env := List (Str × Str)

/-- Lookup in the environment, `os.environ.get`. -/
def getEnv (env : Env) (k : Str) : Option Str :=
  (env.find? (fun p => p.1 == k)).map (·.2)

/-- One line of `load_env_file` (source lines 62-73): strip the line,
skip blank lines and lines starting with `#`, split on the first `=`,
strip surrounding single/double quotes from the value, and assign.
`Char.ofNat 39` is the single-quote character. -/
def processEnvLine (env : Env) (line : Str) : Env :=
  let l := pyStrip line
  if l = [] then env
  else if l.head? = some '#' then env
  else
    match splitOnce '=' l with
    | none => env
    | some kv => (kv.1, pyStripSet [Char.ofNat 39, '"'] kv.2) :: env

/-- Python `load_env_file` (source lines 57-77) applied to the lines of
an existing file: process each line in order. -/
def load_env_file (env : Env) (lines : List Str) : Env :=
  lines.foldl processEnvLine env

/-- Built-in default for HC_BASE_DOMAIN (source line 49). -/
def DEFAULT_HC_BASE_DOMAIN : Str := "https://healthchecks.cmbc.be".data

/-- Built-in default for HC_PING_DOMAIN (source line 50). -/
def DEFAULT_HC_PING_DOMAIN : Str := "https://healthchecks.cmbc.be/ping".data

/-- Built-in default for HC_RW_API_KEY (source line 51). -/
def DEFAULT_HC_RW_API_KEY : Str := "eJy4I0V41OJ7jM1tQy5gjtBgyJ9mz1Kd".data

/-- Built-in default for HC_PING_KEY (source line 52). -/
def DEFAULT_HC_PING_KEY : Str := "oiB2qNQV2uGsYSxQAo3rxA".data

/-- Effective monitoring configuration: base URL, ping URL, read-write
API key, ping key (source lines 83-86 and 119-122). -/
structure Config where
  hc_base_domain : Str
  hc_ping_domain : Str
  hc_rw_api_key : Str
  hc_ping_key : Str
  deriving DecidableEq, Repr

/-- Python `cli or fallback` for an optional CLI argument: an absent or
empty CLI value yields the fallback. -/
def pyOr : Option Str → Str → Str
  | none, b => b
  | some s, b => if s = [] then b else s

/-- Resolution of the four monitoring keys (source lines 80-122).
`defaultFileLines` is the content of `/etc/pve/healthchecks/variables.env`
(`none` when that file is missing), `extraFileLines` the content of a
file passed with `--env-file` when that path differs from the default
(`none` otherwise).  The source's order is kept: the default file is
loaded into the environment (line 80), the four globals are read from
the environment (lines 83-86), the `--env-file` file is loaded into the
environment (lines 116-117) after the globals were already read, and
finally the CLI flags are applied with `or` (lines 119-122). -/
def resolveConfig (procEnv : Env) (defaultFileLines extraFileLines : Option (List Str))
    (cliDomain cliPingDomain cliRwKey cliPingKey : Option Str) : Config :=
  let env1 :=
    match defaultFileLines with
    | some ls => load_env_file procEnv ls
    | none => procEnv
  let base := (getEnv env1 "HC_BASE_DOMAIN".data).getD DEFAULT_HC_BASE_DOMAIN
  let pingDom := (getEnv env1 "HC_PING_DOMAIN".data).getD DEFAULT_HC_PING_DOMAIN
  let rwKey := (getEnv env1 "HC_RW_API_KEY".data).getD DEFAULT_HC_RW_API_KEY
  let pingKey := (getEnv env1 "HC_PING_KEY".data).getD DEFAULT_HC_PING_KEY
  let _env2 :=
    match extraFileLines with
    | some ls => load_env_file env1 ls
    | none => env1
  { hc_base_domain := pyOr cliDomain base,
    hc_ping_domain := pyOr cliPingDomain pingDom,
    hc_rw_api_key := pyOr cliRwKey rwKey,
    hc_ping_key := pyOr cliPingKey pingKey }

/-- Characters allowed by slugify's character class `[a-zA-Z0-9_-]`
(source line 258). -/
def isSlugChar (c : Char) : Bool :=
  ('a' ≤ c && c ≤ 'z') || ('A' ≤ c && c ≤ 'Z') || ('0' ≤ c && c ≤ '9') || c = '_' || c = '-'

/-- Python `slugify(text, suffix)` (source lines 246-260): when the
suffix is non-empty, append a space and the suffix; replace each space
with a double underscore; replace each period with a hyphen; replace
every character outside `[a-zA-Z0-9_-]` with a single underscore. -/
def slugify (text suffix : Str) : Str :=
  (pyReplaceChar
    (pyReplaceChar (if suffix ≠ [] then text ++ [' '] ++ suffix else text) ' ' ['_', '_'])
    '.' ['-']).map (fun c => if isSlugChar c then c else '_')

/-- Python `add_tag(key, value)` (source lines 285-300); `.ok none`
models the Python `return None`. -/
def add_tag (key value : Str) : Except PyError (Option Str) :=
  if key = [] then .error ⟨"Key Validation".data, "Empty key".data⟩
  else if value = [] then .ok none
  else if pyStrip value ≠ [] then
    .ok (some ([' '] ++ key ++ ['='] ++ pyReplaceChar value ' ' ['_']))
  else .ok none

/-- Python `add_tag_from_file(filepath, key)` (source lines 302-322):
`content` is the file's text, `none` when the file is missing, not a
regular file, or not readable (three separate fatal branches of the
source, collapsed into one error here); `key` is the base name passed by
the caller (the script only calls it for `/etc/machine-id`). -/
def add_tag_from_file (content : Option Str) (key : Str) : Except PyError (Option Str) :=
  match content with
  | none => .error ⟨"Check file exists".data, "File not found".data⟩
  | some c => add_tag (pyReplaceChar key ' ' ['_']) (pyStrip c)

/-- Python `add_tag_from_cmd(key, *cmd)` (source lines 324-336): `out`
is the command's stdout, `none` when the command is missing or exits
non-zero (both fatal in the source). -/
def add_tag_from_cmd (key : Str) (out : Option Str) : Except PyError (Option Str) :=
  match out with
  | none => .error ⟨"Validating command".data, "Command not found".data⟩
  | some o => add_tag (pyReplaceChar key ' ' ['_']) (pyStrip o)

/-- The `tags += tag_data` accumulation loops of `main` (source lines
487-496 and 526-537): concatenate the successful tags in order. -/
def catTags (ts : List (Option Str)) : Str :=
  (ts.filterMap id).foldl (· ++ ·) []

/-- The upsert request built by `hc_create` (source lines 367-377):
`slugArg` records the `slug_prefix` argument of the call, `slug` the
full slug sent in the payload. -/
structure CreateCall where
  name : Str
  slugArg : Str
  slug : Str
  grace : Nat
  timeout : Nat
  tz : Str
  description : Str
  tags : Str
  deriving DecidableEq, Repr

/-- Python `hc_create` (source lines 339-391).  `tz` is the outcome of
the timedatectl lookup, whose "UTC" fallback is internal to the source's
try/except; the POST itself is the external collaborator, so a validated
call returns the request it sends. -/
def hc_create (name slugArg : Str) (grace : Nat) (description tags : Str)
    (timeout : Nat) (apikey suffix tz : Str) : Except PyError CreateCall :=
  if name = [] then .error ⟨"HC Create".data, "Name parameter is required".data⟩
  else if slugArg = [] then .error ⟨"HC Create".data, "Slug prefix parameter is required".data⟩
  else if apikey = [] then .error ⟨"HC Create".data, "API key is required".data⟩
  else .ok ⟨name, slugArg, slugify slugArg suffix, grace, timeout, tz,
            description, pyLower (pyStrip tags)⟩

/-- Valid report values of `hc_ping` (source line 404). -/
def validReports : List Str := [[], "start".data, "fail".data, "log".data]

/-- The ping request sent by `hc_ping`: `slugArg` records the
`slug_prefix` argument of the call, `url` the full ping URL, `body` the
POST body actually sent. -/
structure PingCall where
  slugArg : Str
  report : Str
  body : Str
  url : Str
  deriving DecidableEq, Repr

/-- The ping URL `{url}/{pingkey}/{slug}` plus `/{report}` when the
report is non-empty (source lines 416-418). -/
def buildPingUrl (url pingkey slug report : Str) : Str :=
  url ++ ['/'] ++ pingkey ++ ['/'] ++ slug ++ (if report ≠ [] then ['/'] ++ report else [])

/-- The final 100000 bytes of a file read by hc_ping (source lines
436-440: seek to `max(0, size - 100000)`, then read to the end). -/
def tailBytes (content : Str) : Str := content.drop (content.length - 100000)

/-- Python `hc_ping` (source lines 394-450).  `fs` maps a path to the
content of a readable regular file there; `none` covers the three fatal
file checks of the source (missing, not a file, unreadable).  Reading a
file keeps only its final 100000 bytes (lines 436-440: seek to
`max(0, size - 100000)` then read to the end).  The POST is external, so
a validated call returns the request it sends. -/
def hc_ping (slugArg report file data pingkey url suffix : Str)
    (fs : Str → Option Str) : Except PyError PingCall :=
  if slugArg = [] then .error ⟨"HC Ping".data, "Slug prefix parameter is required".data⟩
  else if pingkey = [] then .error ⟨"HC Ping".data, "Ping key is required".data⟩
  else if report ≠ [] ∧ report ∉ validReports ∧ pyIsDigit report = false then
    .error ⟨"HC Ping".data,
            "Report status must be blank, start, fail, log, or a positive number".data⟩
  else if file ≠ [] ∧ data ≠ [] then
    .error ⟨"HC Ping".data, "File and Data arguments are mutually exclusive".data⟩
  else if file ≠ [] then
    match fs file with
    | none => .error ⟨"Check file exists".data, "File not found".data⟩
    | some content =>
      .ok ⟨slugArg, report, tailBytes content,
           buildPingUrl url pingkey (slugify slugArg suffix) report⟩
  else .ok ⟨slugArg, report, data, buildPingUrl url pingkey (slugify slugArg suffix) report⟩

/-- Python `get_dashboard_url(slug, apikey, base_url)` (source lines
263-282).  `lookup` models `GET {base_url}/api/v3/checks/?slug=...` and
returns the first matching check's `ping_url`; `none` covers every
exception of the try block (transport error, non-2xx, no check), all
fatal.  On success the code runs `ping_url.replace("ping", "checks")`
and appends "/details". -/
def get_dashboard_url (slug apikey base_url suffix : Str)
    (lookup : Str → Option Str) : Except PyError Str :=
  match lookup (slugify slug suffix) with
  | none => .error ⟨"Get Dashboard URL".data, "lookup failed".data⟩
  | some ping_url => .ok (pyReplace ping_url "ping".data "checks".data ++ "/details".data)

/-- Bool test: the result is a fatal error raised by hc_ping's own
argument validation (its four checks all use the task name "HC Ping"),
as opposed to a later file error or a success. -/
def isArgError (r : Except PyError PingCall) : Bool :=
  match r with
  | .error e => decide (e.task = "HC Ping".data)
  | .ok _ => false

/-- Ambient state of one invocation of the script after the module-level
setup: positional arguments, environment variables, and the outcome of
every external lookup that `main` may perform.  Fields standing for
subprocess or file reads record the result the collaborator would
return; `Option` fields are `none` when the collaborator fails in a way
the source treats as fatal, or when an environment variable is absent. -/
structure Ctx where
  /-- Positional argument PHASE (non-empty by line 224's check). -/
  phase : Str
  /-- Positional argument MODE. -/
  mode : Str
  /-- Positional argument VMID. -/
  vmid : Str
  /-- Environment variable VMTYPE, `os.environ.get("VMTYPE")` (line 231). -/
  vmtypeEnv : Option Str
  /-- TASK_ID, the output of `ps -o args=` on the parent pid (line 136). -/
  taskId : Str
  /-- CLUSTER from `get_cluster_info` (line 207). -/
  cluster : Str
  /-- NODE from `get_cluster_info` (line 207). -/
  node : Str
  /-- Output of `hostname --domain` during startup, `get_domain` (line 219). -/
  domainStartup : Str
  /-- Output of `hostname --domain` in the backup-start branch (lines 559-561). -/
  domainOut : Str
  /-- Environment variable DUMPDIR (line 235). -/
  dumpdir : Option Str
  /-- Environment variable STOREID (line 235). -/
  storeid : Option Str
  /-- Environment variable HOSTNAME (lines 489, 532, 564). -/
  hostnameEnv : Option Str
  /-- Environment variable HOSTTYPE with default "" (line 533). -/
  hosttypeEnv : Str
  /-- Content of /etc/machine-id; `none` when missing or unreadable (fatal). -/
  machineId : Option Str
  /-- Output of `uname --machine`; `none` when the command fails (fatal). -/
  archOut : Option Str
  /-- Output of `uname --kernel-release`; `none` when the command fails (fatal). -/
  kernelOut : Option Str
  /-- Output of `hostname` for the backup-start "node" tag (line 528). -/
  hostnameOut : Option Str
  /-- Timezone lookup outcome, with the source's internal "UTC" fallback applied. -/
  timezone : Str
  /-- Node description (grep on /etc/pve/local/config, "" fallback, lines 499-504). -/
  nodeDescription : Str
  /-- Guest description (grep on the qemu/lxc config file, lines 541-554). -/
  guestDescription : Str
  /-- Content of the pending error log ERRLOG; `none` when the file is absent. -/
  errlog : Option Str
  /-- Filtered backup log for log-end (`grep -v MESG | grep -v OKhttp`, line 616). -/
  backupLog : Str
  /-- Dashboard lookup: full slug to the matching check's ping_url (line 275). -/
  checkLookup : Str → Option Str
  /-- Whether `check_jq_installed` succeeds (jq present or installable). -/
  jqOk : Bool

/-- VMTYPE with its "unknown" default (source line 231). -/
def vmtypeOf (ctx : Ctx) : Str := ctx.vmtypeEnv.getD "unknown".data

/-- HC_VM_SLUG_PREFIX, the guest slug prefix `f"{VMID}-{VMTYPE}"`
(source line 232). -/
def vmSlugOf (ctx : Ctx) : Str := ctx.vmid ++ ['-'] ++ vmtypeOf ctx

/-- HC_HOST_SLUG_PREFIX, the host slug prefix (source line 220). -/
def hcHostSlug : Str := "job".data

/-- STORAGE, DUMPDIR or else STOREID or else "" (source line 235). -/
def storageOf (ctx : Ctx) : Str := ctx.dumpdir.getD (ctx.storeid.getD [])

/-- HC_SLUG_SUFFIX, `f"{NODE.lower()}.{CLUSTER.lower()}.{domain.lower()}"`
(source line 219). -/
def slugSuffix (ctx : Ctx) : Str :=
  pyLower ctx.node ++ ['.'] ++ pyLower ctx.cluster ++ ['.'] ++ pyLower ctx.domainStartup

/-- Observable monitoring and error-log operations of `main`, recorded
in execution order.  Pure stdout/stderr logging through `info` is not
recorded; `warnEvent` stands for `warn`, which writes to stderr and
appends to the pending error log. -/
inductive Action where
  | create (c : CreateCall)
  | ping (c : PingCall)
  | lookupDash (slug url : Str)
  | appendErrlog (text : Str)
  | unlinkErrlog
  | stdout (text : Str)
  | warnEvent (task msg : Str)
  deriving DecidableEq, Repr

/-- Body text `f"{PHASE}: {HC_VM_SLUG_PREFIX}"` used by several phases. -/
def phaseBody (ctx : Ctx) : Str := ctx.phase ++ ": ".data ++ vmSlugOf ctx

/-- Empty filesystem passed to hc_ping calls that supply no file. -/
def noFs : Str → Option Str := fun _ => none

/-- Python `main()` (source lines 474-652) from `check_jq_installed` on.
Each branch of the eleven-way elif chain on PHASE is kept verbatim,
recording its monitoring calls and error-log operations in order;
`hc_ping`/`hc_create` default parameters are the resolved configuration
(in Python they are bound after the CLI override, lines 119-122). -/
def mainDispatch (cfg : Config) (ctx : Ctx) : Except PyError (List Action) :=
  if ctx.jqOk then
    if ctx.phase = "job-init".data then do
      let t1 ← add_tag "cluster".data ctx.cluster
      let t2 ← add_tag "node".data (ctx.hostnameEnv.getD [])
      let t3 ← add_tag "storage".data (storageOf ctx)
      let t4 ← add_tag_from_file ctx.machineId "machine-id".data
      let t5 ← add_tag_from_cmd "arch".data ctx.archOut
      let t6 ← add_tag_from_cmd "kernel".data ctx.kernelOut
      let cc ← hc_create (slugSuffix ctx) hcHostSlug 7200 ctx.nodeDescription
        (catTags [t1, t2, t3, t4, t5, t6]) 86400 cfg.hc_rw_api_key (slugSuffix ctx)
        ctx.timezone
      pure [.create cc]
    else if ctx.phase = "job-start".data then do
      let p ← hc_ping hcHostSlug "start".data [] [] cfg.hc_ping_key cfg.hc_ping_domain
        (slugSuffix ctx) noFs
      pure [.ping p]
    else if ctx.phase = "backup-start".data then do
      let t1 ← add_tag "cluster".data ctx.cluster
      let t2 ← add_tag_from_cmd "node".data ctx.hostnameOut
      let t3 ← add_tag "storage".data (storageOf ctx)
      let t4 ← add_tag "mode".data ctx.mode
      let t5 ← add_tag "vmid".data ctx.vmid
      let t6 ← add_tag "hostname".data (ctx.hostnameEnv.getD [])
      let t7 ← add_tag "type".data ctx.hosttypeEnv
      let t8 ← add_tag "vmtype".data (vmtypeOf ctx)
      let cc ← hc_create
        (ctx.node ++ ['.'] ++ ctx.domainOut ++ ['.'] ++ vmtypeOf ctx ++ ['.'] ++
          ctx.vmid ++ ['.'] ++ ctx.hostnameEnv.getD "unknown".data)
        (vmSlugOf ctx) 3600
        (if vmtypeOf ctx = "qemu".data then ctx.guestDescription
         else if vmtypeOf ctx = "lxc".data then ctx.guestDescription
         else [])
        (catTags [t1, t2, t3, t4, t5, t6, t7, t8]) 86400 cfg.hc_rw_api_key
        (slugSuffix ctx) ctx.timezone
      let p1 ← hc_ping (vmSlugOf ctx) "start".data [] [] cfg.hc_ping_key
        cfg.hc_ping_domain (slugSuffix ctx) noFs
      let p2 ← hc_ping hcHostSlug "log".data [] (phaseBody ctx) cfg.hc_ping_key
        cfg.hc_ping_domain (slugSuffix ctx) noFs
      pure [.create cc, .ping p1, .ping p2]
    else if ctx.phase ∈ ["pre-stop".data, "pre-restart".data, "post-restart".data] then do
      let p1 ← hc_ping (vmSlugOf ctx) "log".data [] (phaseBody ctx) cfg.hc_ping_key
        cfg.hc_ping_domain (slugSuffix ctx) noFs
      let p2 ← hc_ping hcHostSlug "log".data [] (phaseBody ctx) cfg.hc_ping_key
        cfg.hc_ping_domain (slugSuffix ctx) noFs
      pure [.ping p1, .ping p2]
    else if ctx.phase = "backup-end".data then do
      let p1 ← hc_ping (vmSlugOf ctx) [] [] (phaseBody ctx) cfg.hc_ping_key
        cfg.hc_ping_domain (slugSuffix ctx) noFs
      let p2 ← hc_ping hcHostSlug "log".data [] (phaseBody ctx) cfg.hc_ping_key
        cfg.hc_ping_domain (slugSuffix ctx) noFs
      pure [.ping p1, .ping p2]
    else if ctx.phase = "backup-abort".data then do
      let p1 ← hc_ping (vmSlugOf ctx) "fail".data [] (phaseBody ctx) cfg.hc_ping_key
        cfg.hc_ping_domain (slugSuffix ctx) noFs
      let p2 ← hc_ping hcHostSlug "log".data [] (phaseBody ctx) cfg.hc_ping_key
        cfg.hc_ping_domain (slugSuffix ctx) noFs
      let u ← get_dashboard_url (vmSlugOf ctx) cfg.hc_rw_api_key cfg.hc_base_domain
        (slugSuffix ctx) ctx.checkLookup
      pure [.ping p1, .ping p2,
        .lookupDash (slugify (vmSlugOf ctx) (slugSuffix ctx)) u,
        .appendErrlog (ctx.taskId ++ " - ".data ++ ctx.vmid ++ " - Backup Abort - ".data ++
          u ++ ['\n']),
        .stdout (ctx.taskId ++ " - ".data ++ ctx.vmid ++ " - Backup Abort - ".data ++ u)]
    else if ctx.phase = "log-end".data then do
      let p ← hc_ping (vmSlugOf ctx) "log".data [] ctx.backupLog cfg.hc_ping_key
        cfg.hc_ping_domain (slugSuffix ctx) noFs
      pure [.ping p]
    else if ctx.phase = "job-end".data then
      match ctx.errlog with
      | some content => do
        let p ← hc_ping hcHostSlug "fail".data [] content cfg.hc_ping_key
          cfg.hc_ping_domain (slugSuffix ctx) noFs
        pure [.ping p, .unlinkErrlog]
      | none => do
        let p ← hc_ping hcHostSlug [] [] ctx.taskId cfg.hc_ping_key
          cfg.hc_ping_domain (slugSuffix ctx) noFs
        pure [.ping p]
    else if ctx.phase = "job-abort".data then do
      let p ← hc_ping hcHostSlug "fail".data []
        (ctx.errlog.getD [] ++ ctx.taskId ++ " - Job Abort\n".data)
        cfg.hc_ping_key cfg.hc_ping_domain (slugSuffix ctx) noFs
      pure [.appendErrlog (ctx.taskId ++ " - Job Abort\n".data), .ping p]
    else do
      let p ← hc_ping hcHostSlug "fail".data [] ("UNKNOWN: ".data ++ ctx.phase)
        cfg.hc_ping_key cfg.hc_ping_domain (slugSuffix ctx) noFs
      pure [.ping p, .warnEvent "Unknown Phase".data ctx.phase]
  else .error ⟨"Installing jq".data, "package install failed".data⟩

/-- The module-level mandatory-phase check (source lines 223-225)
followed by `main`. -/
def program (cfg : Config) (ctx : Ctx) : Except PyError (List Action) :=
  if ctx.phase = [] then .error ⟨"Arguments".data, "Phase not provided".data⟩
  else mainDispatch cfg ctx

/-- The eleven phase names handled by the elif chain of `main`. -/
def knownPhases : List Str :=
  ["job-init".data, "job-start".data, "backup-start".data, "pre-stop".data,
   "pre-restart".data, "post-restart".data, "backup-end".data, "backup-abort".data,
   "log-end".data, "job-end".data, "job-abort".data]

/-- The phases whose branch contacts the guest (VM/LXC) check. -/
def guestPhases : List Str :=
  ["backup-start".data, "pre-stop".data, "pre-restart".data, "post-restart".data,
   "backup-end".data, "backup-abort".data, "log-end".data]

/-- The ping request `hc_ping` sends for slug-prefix argument `sp`,
report `report` and literal body `body`, under configuration `cfg` and
host slug suffix `sfx`. -/
def sentPing (cfg : Config) (sfx sp report body : Str) : PingCall :=
  ⟨sp, report, body, buildPingUrl cfg.hc_ping_domain cfg.hc_ping_key (slugify sp sfx) report⟩

/-- The ping requests of a trace, in order. -/
def pingsOf (tr : List Action) : List PingCall :=
  tr.filterMap fun a => match a with | .ping c => some c | _ => none

/-- The check-upsert requests of a trace, in order. -/
def createsOf (tr : List Action) : List CreateCall :=
  tr.filterMap fun a => match a with | .create c => some c | _ => none

/-! Helper lemmas. -/

/-- Decidable equality of `Except` results, for evaluating the embedded
functions on concrete inputs. -/
instance {ε α : Type} [DecidableEq ε] [DecidableEq α] : DecidableEq (Except ε α) := by
  intro a b
  cases a with
  | error e =>
    cases b with
    | error f =>
      exact if h : e = f then isTrue (by rw [h]) else isFalse (by intro hh; cases hh; exact h rfl)
    | ok y => exact isFalse (by intro hh; cases hh)
  | ok x =>
    cases b with
    | error f => exact isFalse (by intro hh; cases hh)
    | ok y =>
      exact if h : x = y then isTrue (by rw [h]) else isFalse (by intro hh; cases hh; exact h rfl)



/-- Dropping a prefix by `p` leaves nothing exactly when every character
satisfies `p`. -/
theorem dropWhile_nil_iff_all (p : Char → Bool) (s : Str) :
    s.dropWhile p = [] ↔ s.all p = true := by
  induction s with
  | nil => simp
  | cons c rest ih =>
    by_cases h : p c = true
    · simp [List.dropWhile_cons, h, ih]
    · simp [List.dropWhile_cons, h]

/-- Dropping a prefix by `p` does not change whether all characters
satisfy `p`. -/
theorem all_dropWhile_iff (p : Char → Bool) (s : Str) :
    (s.dropWhile p).all p = true ↔ s.all p = true := by
  induction s with
  | nil => simp
  | cons c rest ih =>
    by_cases h : p c = true
    · simp [List.dropWhile_cons, h, ih]
    · simp [List.dropWhile_cons, h]

/-- Python `value.strip()` is empty exactly when the value is empty or
whitespace-only. -/
theorem pyStrip_eq_nil_iff (s : Str) : pyStrip s = [] ↔ s.all isPySpace = true := by
  unfold pyStrip
  rw [List.reverse_eq_nil_iff, dropWhile_nil_iff_all, List.all_reverse, all_dropWhile_iff]

/-- Replacing a character that never occurs (because every character is
in the slug class and the replaced one is not) is the identity. -/
theorem pyReplaceChar_id (s : Str) (old : Char) (new : Str)
    (hall : s.all isSlugChar = true) (hold : isSlugChar old = false) :
    pyReplaceChar s old new = s := by
  induction s with
  | nil => rfl
  | cons c rest ih =>
    simp only [List.all_cons, Bool.and_eq_true] at hall
    have hne : c ≠ old := by
      intro he
      rw [he, hold] at hall
      exact Bool.false_ne_true hall.1
    simp [pyReplaceChar, hne, ih hall.2]

/-- The final character-forcing map of slugify is the identity on
strings already inside the slug class. -/
theorem map_slug_id (s : Str) (hall : s.all isSlugChar = true) :
    s.map (fun c => if isSlugChar c then c else '_') = s := by
  induction s with
  | nil => rfl
  | cons c rest ih =>
    simp only [List.all_cons, Bool.and_eq_true] at hall
    simp [hall.1, ih hall.2]

/-- Every character of a slugify result is in the slug class. -/
theorem slugify_all_slugChar (text suffix : Str) :
    (slugify text suffix).all isSlugChar = true := by
  unfold slugify
  rw [List.all_eq_true]
  intro c hc
  rw [List.mem_map] at hc
  obtain ⟨a, _, rfl⟩ := hc
  by_cases h : isSlugChar a = true
  · rw [if_pos h]; exact h
  · rw [if_neg h]; rfl

/-- Slugify with empty suffix fixes any string inside the slug class. -/
theorem slugify_of_all_slug (s : Str) (h : s.all isSlugChar = true) :
    slugify s [] = s := by
  unfold slugify
  rw [if_neg (by simp)]
  rw [pyReplaceChar_id s ' ' ['_', '_'] h (by decide)]
  rw [pyReplaceChar_id s '.' ['-'] h (by decide)]
  exact map_slug_id s h

/-! Claim theorems. -/

/-- C1: the claim says a file supplied via `--env-file` participates in
the precedence chain for the four monitoring keys, but the code reads
the four values from the environment (lines 83-86) before loading that
file (line 117), so the file's values never reach them: with no CLI
flag and no default config file, an `--env-file` file defining
HC_PING_KEY still leaves the built-in default in effect (conjuncts 1-2).
The other two layers do behave as claimed: a default-file value
overrides the built-in default and a CLI value overrides both
(conjuncts 3-4). -/
theorem C1_env_file_layer_ignored :
    (resolveConfig [] none (some ["HC_PING_KEY=filekey".data]) none none none
        none).hc_ping_key = DEFAULT_HC_PING_KEY ∧
    "filekey".data ≠ DEFAULT_HC_PING_KEY ∧
    (resolveConfig [] (some ["HC_PING_KEY=filekey".data]) none none none none
        none).hc_ping_key = "filekey".data ∧
    (resolveConfig [] (some ["HC_PING_KEY=filekey".data]) none none none none
        (some "clikey".data)).hc_ping_key = "clikey".data := by
  decide

/-- C2: for every text and suffix, slugify produces only characters in
`[A-Za-z0-9_-]`, and slugify with empty suffix applied to any of its own
outputs returns that output unchanged. -/
theorem C2_slugify_safe_and_idempotent (text suffix : Str) :
    (slugify text suffix).all isSlugChar = true ∧
      slugify (slugify text suffix) [] = slugify text suffix :=
  ⟨slugify_all_slugChar text suffix,
   slugify_of_all_slug (slugify text suffix) (slugify_all_slugChar text suffix)⟩

/-- C5: add_tag is asymmetric in its arguments: an empty key is fatal
for every value; a non-empty key with an empty or whitespace-only value
returns nothing without error; otherwise the result is " key=value"
with every space of the value replaced by an underscore. -/
theorem C5_add_tag_asymmetric (key value : Str) :
    add_tag key value =
      (if key = [] then .error ⟨"Key Validation".data, "Empty key".data⟩
       else if value.all isPySpace = true then .ok none
       else .ok (some ([' '] ++ key ++ ['='] ++ pyReplaceChar value ' ' ['_']))) := by
  unfold add_tag
  by_cases hk : key = []
  · rw [if_pos hk, if_pos hk]
  · rw [if_neg hk, if_neg hk]
    by_cases hv : value = []
    · subst hv
      rw [if_pos rfl, if_pos (by decide)]
    · rw [if_neg hv]
      by_cases hs : value.all isPySpace = true
      · have hnil : pyStrip value = [] := (pyStrip_eq_nil_iff value).mpr hs
        rw [if_neg (fun hne => hne hnil), if_pos hs]
      · have hne : pyStrip value ≠ [] := fun he => hs ((pyStrip_eq_nil_iff value).mp he)
        rw [if_pos hne, if_neg hs]

/-- C8 counterexample: the claim says only the path segment "ping" of
the check's ping URL is replaced, leaving other occurrences of "ping"
(for example in the host name) unchanged; but the code uses
`str.replace`, which rewrites every occurrence, so a ping URL with
"ping" in its host name is rewritten there too, and the result differs
from the URL predicted by the claim. -/
theorem C8_replace_counterexample :
    get_dashboard_url "s".data "a".data "b".data []
        (fun _ => some "https://ping.example.com/ping/k1".data) =
      .ok "https://checks.example.com/checks/k1/details".data ∧
    "https://checks.example.com/checks/k1/details".data ≠
      "https://ping.example.com/checks/k1/details".data := by
  decide

/-- Helper: `str.replace` with a pattern that does not occur is the
identity, for any amount of fuel. -/
theorem pyReplaceFuel_no_occ (fuel : Nat) (s pat repl : Str)
    (h : containsSub s pat = false) : pyReplaceFuel fuel s pat repl = s := by
  induction fuel generalizing s with
  | zero => cases pat <;> rfl
  | succ n ih =>
    cases pat with
    | nil => cases s <;> rfl
    | cons p ps =>
      cases s with
      | nil => rfl
      | cons c rest =>
        rw [containsSub, Bool.or_eq_false_iff] at h
        rw [pyReplaceFuel, if_neg (by rw [h.1]; exact Bool.false_ne_true), ih rest h.2]

/-- C8 amended: on a successful lookup, get_dashboard_url returns the
check's ping URL with every occurrence of the substring "ping" replaced
by "checks" (leftmost first, non-overlapping — occurrences inside the
host name or the ping key included) and "/details" appended; in
particular a ping URL not containing "ping" at all is returned with only
"/details" appended. -/
theorem C8_dashboard_url_replaces_all (slug apikey base sfx pu : Str)
    (lookup : Str → Option Str)
    (hlk : lookup (slugify slug sfx) = some pu) :
    get_dashboard_url slug apikey base sfx lookup =
      .ok (pyReplace pu "ping".data "checks".data ++ "/details".data) ∧
    (containsSub pu "ping".data = false →
      get_dashboard_url slug apikey base sfx lookup = .ok (pu ++ "/details".data)) := by
  constructor
  · unfold get_dashboard_url
    rw [hlk]
  · intro hno
    unfold get_dashboard_url pyReplace
    rw [hlk]
    show Except.ok (pyReplaceFuel pu.length pu "ping".data "checks".data ++ "/details".data) =
      Except.ok (pu ++ "/details".data)
    rw [pyReplaceFuel_no_occ pu.length pu "ping".data "checks".data hno]

/-- Witness for C8 at a concrete input: a lookup returning the ping URL
"x", which does not contain "ping". -/
theorem C8_dashboard_url_replaces_all_witness :
    (get_dashboard_url "s".data "a".data "b".data [] (fun _ => some "x".data) =
      .ok (pyReplace "x".data "ping".data "checks".data ++ "/details".data)) ∧
    (containsSub "x".data "ping".data = false →
      get_dashboard_url "s".data "a".data "b".data [] (fun _ => some "x".data) =
        .ok ("x".data ++ "/details".data)) :=
  C8_dashboard_url_replaces_all "s".data "a".data "b".data [] "x".data
    (fun _ => some "x".data) rfl

/-- Structural characterisation: hc_ping raises a task "HC Ping" error
exactly when one of its four argument checks fires, stated with the
source's own conditions. -/
theorem isArgError_iff (sp report file data pingkey url sfx : Str)
    (fs : Str → Option Str) :
    isArgError (hc_ping sp report file data pingkey url sfx fs) = true ↔
      (sp = [] ∨ pingkey = [] ∨
        (report ≠ [] ∧ report ∉ validReports ∧ pyIsDigit report = false) ∨
        (file ≠ [] ∧ data ≠ [])) := by
  unfold hc_ping
  by_cases h1 : sp = []
  · rw [if_pos h1]; simp [isArgError, h1]
  rw [if_neg h1]
  by_cases h2 : pingkey = []
  · rw [if_pos h2]; simp [isArgError, h1, h2]
  rw [if_neg h2]
  by_cases h3 : report ≠ [] ∧ report ∉ validReports ∧ pyIsDigit report = false
  · rw [if_pos h3]; simp [isArgError, h1, h2, h3]
  rw [if_neg h3]
  by_cases h4 : file ≠ [] ∧ data ≠ []
  · rw [if_pos h4]; simp [isArgError, h1, h2, h3, h4]
  rw [if_neg h4]
  by_cases h5 : file ≠ []
  · rw [if_pos h5]
    cases hf : fs file with
    | none =>
      simp only [isArgError, decide_eq_true_eq]
      constructor
      · intro h; exact absurd h (by decide)
      · intro h; exact absurd h (by simp [h1, h2, h3, h4])
    | some c => simp [isArgError, h1, h2, h3, h4]
  · rw [if_neg h5]
    simp [isArgError, h1, h2, h3, h4]

/-- The source's report condition restated in the claim's wording. -/
theorem report_cond_iff (report : Str) :
    (report ≠ [] ∧ report ∉ validReports ∧ pyIsDigit report = false) ↔
      (report ≠ [] ∧ report ≠ "start".data ∧ report ≠ "fail".data ∧
        report ≠ "log".data ∧ report.all Char.isDigit = false) := by
  cases report with
  | nil => simp
  | cons c r =>
    rw [validReports, pyIsDigit]
    simp [not_or]
    tauto

/-- A ping with valid arguments and no file sends the request built from
its arguments. -/
theorem hc_ping_ok_of_valid (sp report data pingkey url sfx : Str)
    (fs : Str → Option Str) (hsp : sp ≠ []) (hk : pingkey ≠ [])
    (hr : ¬(report ≠ [] ∧ report ∉ validReports ∧ pyIsDigit report = false)) :
    hc_ping sp report [] data pingkey url sfx fs =
      .ok ⟨sp, report, data, buildPingUrl url pingkey (slugify sp sfx) report⟩ := by
  unfold hc_ping
  rw [if_neg hsp, if_neg hk, if_neg hr, if_neg (by simp), if_neg (by simp)]

/-- Special case of `hc_ping_ok_of_valid` for a report in the valid list. -/
theorem hc_ping_ok_of_mem (sp report data pingkey url sfx : Str)
    (fs : Str → Option Str) (hsp : sp ≠ []) (hk : pingkey ≠ [])
    (hr : report ∈ validReports) :
    hc_ping sp report [] data pingkey url sfx fs =
      .ok ⟨sp, report, data, buildPingUrl url pingkey (slugify sp sfx) report⟩ :=
  hc_ping_ok_of_valid sp report data pingkey url sfx fs hsp hk (fun h => h.2.1 hr)

/-- C3: hc_ping raises a fatal argument-validation error exactly when
the slug prefix or ping key is empty, the report is non-empty and
neither "start", "fail", "log" nor a string of digits, or both the file
and data body sources are supplied; otherwise (here with no file
argument) it proceeds and sends the ping. -/
theorem C3_hc_ping_validation (sp report file data pingkey url sfx : Str)
    (fs : Str → Option Str) :
    (isArgError (hc_ping sp report file data pingkey url sfx fs) = true ↔
      (sp = [] ∨ pingkey = [] ∨
        (report ≠ [] ∧ report ≠ "start".data ∧ report ≠ "fail".data ∧
          report ≠ "log".data ∧ report.all Char.isDigit = false) ∨
        (file ≠ [] ∧ data ≠ []))) ∧
    (¬(sp = [] ∨ pingkey = [] ∨
        (report ≠ [] ∧ report ≠ "start".data ∧ report ≠ "fail".data ∧
          report ≠ "log".data ∧ report.all Char.isDigit = false) ∨
        (file ≠ [] ∧ data ≠ [])) → file = [] →
      hc_ping sp report file data pingkey url sfx fs =
        .ok ⟨sp, report, data, buildPingUrl url pingkey (slugify sp sfx) report⟩) := by
  constructor
  · rw [isArgError_iff, report_cond_iff]
  · intro hnot hfile
    subst hfile
    exact hc_ping_ok_of_valid sp report data pingkey url sfx fs
      (fun h => hnot (Or.inl h))
      (fun h => hnot (Or.inr (Or.inl h)))
      (fun h => hnot (Or.inr (Or.inr (Or.inl ((report_cond_iff report).mp h)))))

/-- Witness for C3 at a concrete input: report "bogus" with otherwise
valid arguments is a validation error, and the right-hand conditions
agree. -/
theorem C3_hc_ping_validation_witness :
    (isArgError (hc_ping "a".data "bogus".data [] [] "k".data "u".data [] noFs) = true ↔
      ("a".data = ([] : Str) ∨ "k".data = ([] : Str) ∨
        ("bogus".data ≠ ([] : Str) ∧ "bogus".data ≠ "start".data ∧
          "bogus".data ≠ "fail".data ∧ "bogus".data ≠ "log".data ∧
          "bogus".data.all Char.isDigit = false) ∨
        (([] : Str) ≠ ([] : Str) ∧ ([] : Str) ≠ ([] : Str)))) ∧
    (¬("a".data = ([] : Str) ∨ "k".data = ([] : Str) ∨
        ("bogus".data ≠ ([] : Str) ∧ "bogus".data ≠ "start".data ∧
          "bogus".data ≠ "fail".data ∧ "bogus".data ≠ "log".data ∧
          "bogus".data.all Char.isDigit = false) ∨
        (([] : Str) ≠ ([] : Str) ∧ ([] : Str) ≠ ([] : Str))) → ([] : Str) = [] →
      hc_ping "a".data "bogus".data [] [] "k".data "u".data [] noFs =
        .ok ⟨"a".data, "bogus".data, [],
             buildPingUrl "u".data "k".data (slugify "a".data []) "bogus".data⟩) :=
  C3_hc_ping_validation "a".data "bogus".data [] [] "k".data "u".data [] noFs

/-- C4: with a file body source, hc_ping sends the trailing bytes of the
file: the whole file when it has at most 100000 bytes, and exactly the
last 100000 bytes otherwise. -/
theorem C4_hc_ping_file_tail (sp pingkey url sfx path content : Str)
    (hsp : sp ≠ []) (hk : pingkey ≠ []) (hpath : path ≠ []) :
    hc_ping sp [] path [] pingkey url sfx
        (fun q => if q = path then some content else none) =
      .ok ⟨sp, [], tailBytes content, buildPingUrl url pingkey (slugify sp sfx) []⟩ ∧
    (content.length ≤ 100000 → tailBytes content = content) ∧
    (100000 < content.length →
      (tailBytes content).length = 100000 ∧
      content.take (content.length - 100000) ++ tailBytes content = content) := by
  refine ⟨?_, ?_, ?_⟩
  · unfold hc_ping
    have h3 : ¬(([] : Str) ≠ [] ∧ ([] : Str) ∉ validReports ∧ pyIsDigit [] = false) := by
      simp
    have h4 : ¬(path ≠ [] ∧ ([] : Str) ≠ []) := by simp
    rw [if_neg hsp, if_neg hk, if_neg h3, if_neg h4, if_pos hpath]
    simp
  · intro h
    have h0 : content.length - 100000 = 0 := by omega
    unfold tailBytes
    rw [h0, List.drop_zero]
  · intro h
    unfold tailBytes
    generalize hn : content.length - 100000 = n
    constructor
    · rw [List.length_drop]
      omega
    · exact List.take_append_drop n content

/-- Witness for C4 at a concrete input: a two-byte file at path "p". -/
theorem C4_hc_ping_file_tail_witness :
    hc_ping "a".data [] "p".data [] "k".data "u".data []
        (fun q => if q = "p".data then some "xy".data else none) =
      .ok ⟨"a".data, [], tailBytes "xy".data,
           buildPingUrl "u".data "k".data (slugify "a".data []) []⟩ ∧
    ("xy".data.length ≤ 100000 → tailBytes "xy".data = "xy".data) ∧
    (100000 < "xy".data.length →
      (tailBytes "xy".data).length = 100000 ∧
      "xy".data.take ("xy".data.length - 100000) ++ tailBytes "xy".data = "xy".data) :=
  C4_hc_ping_file_tail "a".data "k".data "u".data [] "p".data "xy".data
    (by decide) (by decide) (by decide)

/-- Deconstruction of a successful bind in the Except monad. -/
theorem bind_eq_ok {ε α β : Type} {x : Except ε α} {f : α → Except ε β} {b : β}
    (h : x >>= f = .ok b) : ∃ a, x = .ok a ∧ f a = .ok b := by
  cases x with
  | error e =>
    simp only [Bind.bind, Except.bind] at h
    exact Except.noConfusion h
  | ok a => exact ⟨a, rfl, h⟩

/-- The guest slug prefix is never empty: it contains the hyphen. -/
theorem vmSlug_ne_nil (ctx : Ctx) : vmSlugOf ctx ≠ [] := by
  unfold vmSlugOf
  intro h
  have hlen := congrArg List.length h
  simp [List.length_append] at hlen

/-- A successful hc_ping call with no file argument returns exactly the
request built from its arguments. -/
theorem hc_ping_nofile_ok_inv (sp report data pingkey url sfx : Str)
    (fs : Str → Option Str) (c : PingCall)
    (h : hc_ping sp report [] data pingkey url sfx fs = .ok c) :
    c = ⟨sp, report, data, buildPingUrl url pingkey (slugify sp sfx) report⟩ := by
  unfold hc_ping at h
  split_ifs at h
  · exact absurd rfl ‹([] : Str) ≠ []›
  · exact (Except.ok.inj h).symm

/-- A successful hc_create call returns exactly the request built from
its arguments. -/
theorem hc_create_ok_inv (name slugArg : Str) (grace : Nat) (descr tags : Str)
    (timeout : Nat) (apikey sfx tz : Str) (c : CreateCall)
    (h : hc_create name slugArg grace descr tags timeout apikey sfx tz = .ok c) :
    c = ⟨name, slugArg, slugify slugArg sfx, grace, timeout, tz, descr,
         pyLower (pyStrip tags)⟩ := by
  unfold hc_create at h
  split_ifs at h
  exact (Except.ok.inj h).symm

/-- A dashboard lookup that returns a ping URL yields the rewritten
dashboard URL. -/
theorem get_dashboard_url_ok (slug apikey base sfx pu : Str)
    (lookup : Str → Option Str) (hlk : lookup (slugify slug sfx) = some pu) :
    get_dashboard_url slug apikey base sfx lookup =
      .ok (pyReplace pu "ping".data "checks".data ++ "/details".data) := by
  unfold get_dashboard_url
  rw [hlk]

/-- C6: in phase job-end, when a pending error log exists the program
sends exactly one "fail" ping to the host check whose body is the log's
full content and then deletes the log file; when it does not exist, it
sends exactly one ping with no report code whose body is the task
identifier. -/
theorem C6_job_end (cfg : Config) (ctx : Ctx)
    (hph : ctx.phase = "job-end".data) (hk : cfg.hc_ping_key ≠ [])
    (hjq : ctx.jqOk = true) :
    program cfg ctx = .ok
      (match ctx.errlog with
       | some content =>
         [.ping (sentPing cfg (slugSuffix ctx) hcHostSlug "fail".data content),
          .unlinkErrlog]
       | none => [.ping (sentPing cfg (slugSuffix ctx) hcHostSlug [] ctx.taskId)]) := by
  unfold program
  rw [if_neg (by rw [hph]; decide)]
  unfold mainDispatch
  rw [if_pos hjq, hph]
  rw [if_neg (by decide), if_neg (by decide), if_neg (by decide), if_neg (by decide),
      if_neg (by decide), if_neg (by decide), if_neg (by decide), if_pos rfl]
  cases herr : ctx.errlog with
  | some content =>
    have hping := hc_ping_ok_of_mem hcHostSlug "fail".data content cfg.hc_ping_key
      cfg.hc_ping_domain (slugSuffix ctx) noFs (by decide) hk (by decide)
    simp only [hping]
    rfl
  | none =>
    have hping := hc_ping_ok_of_mem hcHostSlug [] ctx.taskId cfg.hc_ping_key
      cfg.hc_ping_domain (slugSuffix ctx) noFs (by decide) hk (by decide)
    simp only [hping]
    rfl

/-- C7: phase backup-abort issues exactly three monitoring operations in
this order: one "fail" ping to the guest check slug, one "log" ping to
the host check slug, and one dashboard-URL lookup for the guest slug,
whose result is appended to the pending error log and printed to
standard output. -/
theorem C7_backup_abort (cfg : Config) (ctx : Ctx) (pu : Str)
    (hph : ctx.phase = "backup-abort".data) (hk : cfg.hc_ping_key ≠ [])
    (hjq : ctx.jqOk = true)
    (hlk : ctx.checkLookup (slugify (vmSlugOf ctx) (slugSuffix ctx)) = some pu) :
    program cfg ctx = .ok
      [.ping (sentPing cfg (slugSuffix ctx) (vmSlugOf ctx) "fail".data (phaseBody ctx)),
       .ping (sentPing cfg (slugSuffix ctx) hcHostSlug "log".data (phaseBody ctx)),
       .lookupDash (slugify (vmSlugOf ctx) (slugSuffix ctx))
         (pyReplace pu "ping".data "checks".data ++ "/details".data),
       .appendErrlog (ctx.taskId ++ " - ".data ++ ctx.vmid ++ " - Backup Abort - ".data ++
         (pyReplace pu "ping".data "checks".data ++ "/details".data) ++ ['\n']),
       .stdout (ctx.taskId ++ " - ".data ++ ctx.vmid ++ " - Backup Abort - ".data ++
         (pyReplace pu "ping".data "checks".data ++ "/details".data))] := by
  unfold program
  rw [if_neg (by rw [hph]; decide)]
  unfold mainDispatch
  rw [if_pos hjq, hph]
  rw [if_neg (by decide), if_neg (by decide), if_neg (by decide), if_neg (by decide),
      if_neg (by decide), if_pos rfl]
  have hp1 := hc_ping_ok_of_mem (vmSlugOf ctx) "fail".data (phaseBody ctx) cfg.hc_ping_key
    cfg.hc_ping_domain (slugSuffix ctx) noFs (vmSlug_ne_nil ctx) hk (by decide)
  have hp2 := hc_ping_ok_of_mem hcHostSlug "log".data (phaseBody ctx) cfg.hc_ping_key
    cfg.hc_ping_domain (slugSuffix ctx) noFs (by decide) hk (by decide)
  have hd := get_dashboard_url_ok (vmSlugOf ctx) cfg.hc_rw_api_key cfg.hc_base_domain
    (slugSuffix ctx) pu ctx.checkLookup hlk
  simp only [hp1, hp2, hd]
  rfl

/-- C9: for any non-empty phase outside the eleven known phases, the
program does not raise a fatal error: it sends exactly one "fail" ping
to the host check whose body notes the unknown phase, emits a warning,
and continues to a normal exit; an empty phase is a fatal startup error
raised before dispatch. -/
theorem C9_unknown_phase (cfg : Config) (ctx : Ctx)
    (hph : ctx.phase ∉ knownPhases) (hk : cfg.hc_ping_key ≠ [])
    (hjq : ctx.jqOk = true) :
    program cfg ctx =
      (if ctx.phase = [] then .error ⟨"Arguments".data, "Phase not provided".data⟩
       else .ok
         [.ping (sentPing cfg (slugSuffix ctx) hcHostSlug "fail".data
            ("UNKNOWN: ".data ++ ctx.phase)),
          .warnEvent "Unknown Phase".data ctx.phase]) := by
  unfold program
  by_cases hempty : ctx.phase = []
  · rw [if_pos hempty, if_pos hempty]
  · rw [if_neg hempty, if_neg hempty]
    unfold mainDispatch
    rw [if_pos hjq]
    simp only [knownPhases, List.mem_cons, List.mem_singleton, not_or] at hph
    obtain ⟨n1, n2, n3, n4, n5, n6, n7, n8, n9, n10, n11, -⟩ := hph
    rw [if_neg n1, if_neg n2, if_neg n3, if_neg (by simp [n4, n5, n6]),
        if_neg n7, if_neg n8, if_neg n9, if_neg n10, if_neg n11]
    have hp := hc_ping_ok_of_mem hcHostSlug "fail".data ("UNKNOWN: ".data ++ ctx.phase)
      cfg.hc_ping_key cfg.hc_ping_domain (slugSuffix ctx) noFs (by decide) hk (by decide)
    simp only [hp]
    rfl

/-- Sample configuration used by the concrete witnesses. -/
def cfgW : Config :=
  ⟨"https://hc.example".data, "https://hc.example/ping".data,
   "rwkey".data, "pingkey0".data⟩

/-- Sample invocation context used by the concrete witnesses. -/
def ctxW : Ctx where
  phase := "job-end".data
  mode := "snapshot".data
  vmid := "101".data
  vmtypeEnv := some "lxc".data
  taskId := "UPID:n1".data
  cluster := "prod".data
  node := "pve1".data
  domainStartup := "example.com".data
  domainOut := "example.com".data
  dumpdir := none
  storeid := some "store1".data
  hostnameEnv := some "guest1".data
  hosttypeEnv := "x86_64".data
  machineId := some "abc123".data
  archOut := some "x86_64".data
  kernelOut := some "6.8".data
  hostnameOut := some "pve1".data
  timezone := "UTC".data
  nodeDescription := []
  guestDescription := []
  errlog := some "X".data
  backupLog := "log line".data
  checkLookup := fun _ => some "https://hc.example/ping/uuid1".data
  jqOk := true

/-- Witness for C6 at a concrete input, in both errlog states. -/
theorem C6_job_end_witness :
    program cfgW ctxW = .ok
      [.ping (sentPing cfgW (slugSuffix ctxW) hcHostSlug "fail".data "X".data),
       .unlinkErrlog] :=
  C6_job_end cfgW ctxW rfl (by decide) rfl

/-- Sample context in phase backup-abort. -/
def ctx7 : Ctx := { ctxW with phase := "backup-abort".data }

/-- Witness for C7 at a concrete input. -/
theorem C7_backup_abort_witness :
    program cfgW ctx7 = .ok
      [.ping (sentPing cfgW (slugSuffix ctx7) (vmSlugOf ctx7) "fail".data (phaseBody ctx7)),
       .ping (sentPing cfgW (slugSuffix ctx7) hcHostSlug "log".data (phaseBody ctx7)),
       .lookupDash (slugify (vmSlugOf ctx7) (slugSuffix ctx7))
         (pyReplace "https://hc.example/ping/uuid1".data "ping".data "checks".data ++
           "/details".data),
       .appendErrlog (ctx7.taskId ++ " - ".data ++ ctx7.vmid ++ " - Backup Abort - ".data ++
         (pyReplace "https://hc.example/ping/uuid1".data "ping".data "checks".data ++
           "/details".data) ++ ['\n']),
       .stdout (ctx7.taskId ++ " - ".data ++ ctx7.vmid ++ " - Backup Abort - ".data ++
         (pyReplace "https://hc.example/ping/uuid1".data "ping".data "checks".data ++
           "/details".data))] :=
  C7_backup_abort cfgW ctx7 "https://hc.example/ping/uuid1".data rfl (by decide) rfl rfl

/-- Sample context with an unknown phase. -/
def ctx9 : Ctx := { ctxW with phase := "strange".data }

/-- Witness for C9 at a concrete input. -/
theorem C9_unknown_phase_witness :
    program cfgW ctx9 =
      (if ctx9.phase = [] then .error ⟨"Arguments".data, "Phase not provided".data⟩
       else .ok
         [.ping (sentPing cfgW (slugSuffix ctx9) hcHostSlug "fail".data
            ("UNKNOWN: ".data ++ ctx9.phase)),
          .warnEvent "Unknown Phase".data ctx9.phase]) :=
  C9_unknown_phase cfgW ctx9 (by decide) (by decide) rfl

/-! Trace filtering equations for pingsOf and createsOf. -/

theorem pingsOf_nil : pingsOf [] = [] := rfl

theorem pingsOf_ping (c : PingCall) (tr : List Action) :
    pingsOf (.ping c :: tr) = c :: pingsOf tr := rfl

theorem pingsOf_create (c : CreateCall) (tr : List Action) :
    pingsOf (.create c :: tr) = pingsOf tr := rfl

theorem pingsOf_lookup (s u : Str) (tr : List Action) :
    pingsOf (.lookupDash s u :: tr) = pingsOf tr := rfl

theorem pingsOf_appendErr (t : Str) (tr : List Action) :
    pingsOf (.appendErrlog t :: tr) = pingsOf tr := rfl

theorem pingsOf_stdout (t : Str) (tr : List Action) :
    pingsOf (.stdout t :: tr) = pingsOf tr := rfl

theorem createsOf_nil : createsOf [] = [] := rfl

theorem createsOf_create (c : CreateCall) (tr : List Action) :
    createsOf (.create c :: tr) = c :: createsOf tr := rfl

theorem createsOf_ping (c : PingCall) (tr : List Action) :
    createsOf (.ping c :: tr) = createsOf tr := rfl

theorem createsOf_lookup (s u : Str) (tr : List Action) :
    createsOf (.lookupDash s u :: tr) = createsOf tr := rfl

theorem createsOf_appendErr (t : Str) (tr : List Action) :
    createsOf (.appendErrlog t :: tr) = createsOf tr := rfl

theorem createsOf_stdout (t : Str) (tr : List Action) :
    createsOf (.stdout t :: tr) = createsOf tr := rfl

/-- The composite check name used at guest check creation is strictly
longer than the guest slug prefix (it carries four extra separator
periods), hence always different from it. -/
theorem compositeName_ne_vmSlug (ctx : Ctx) :
    ctx.node ++ ['.'] ++ ctx.domainOut ++ ['.'] ++ vmtypeOf ctx ++ ['.'] ++
      ctx.vmid ++ ['.'] ++ ctx.hostnameEnv.getD "unknown".data ≠ vmSlugOf ctx := by
  intro h
  have hlen := congrArg List.length h
  simp only [vmSlugOf, List.length_append, List.length_cons, List.length_nil] at hlen
  omega

/-- C10: in every phase whose branch contacts the guest check, each ping
targets either the host slug prefix "job" or the guest slug prefix,
which is exactly VMID ++ "-" ++ VMTYPE (with VMTYPE the literal
"unknown" when its environment variable is absent); at least one ping of
the branch targets the guest prefix; and the backup-start guest check
creation uses that same slug prefix while its composite name is always
distinct from it. -/
theorem C10_guest_slug (cfg : Config) (ctx : Ctx) (tr : List Action)
    (hph : ctx.phase ∈ guestPhases)
    (hok : mainDispatch cfg ctx = .ok tr) :
    (∀ c ∈ pingsOf tr,
        c.slugArg = hcHostSlug ∨
        c.slugArg = ctx.vmid ++ ['-'] ++ ctx.vmtypeEnv.getD "unknown".data) ∧
    (∃ c ∈ pingsOf tr,
        c.slugArg = ctx.vmid ++ ['-'] ++ ctx.vmtypeEnv.getD "unknown".data) ∧
    (∀ cc ∈ createsOf tr,
        cc.slugArg = ctx.vmid ++ ['-'] ++ ctx.vmtypeEnv.getD "unknown".data ∧
        cc.name ≠ ctx.vmid ++ ['-'] ++ ctx.vmtypeEnv.getD "unknown".data) := by
  have hvs : ctx.vmid ++ ['-'] ++ ctx.vmtypeEnv.getD "unknown".data = vmSlugOf ctx := rfl
  rw [hvs]
  simp only [guestPhases, List.mem_cons] at hph
  rcases hph with h | h | h | h | h | h | h | h
  · -- backup-start
    unfold mainDispatch at hok
    rw [h] at hok
    by_cases hjq : ctx.jqOk = true
    · rw [if_pos hjq, if_neg (by decide), if_neg (by decide), if_pos rfl] at hok
      obtain ⟨t1, ht1, hok⟩ := bind_eq_ok hok
      obtain ⟨t2, ht2, hok⟩ := bind_eq_ok hok
      obtain ⟨t3, ht3, hok⟩ := bind_eq_ok hok
      obtain ⟨t4, ht4, hok⟩ := bind_eq_ok hok
      obtain ⟨t5, ht5, hok⟩ := bind_eq_ok hok
      obtain ⟨t6, ht6, hok⟩ := bind_eq_ok hok
      obtain ⟨t7, ht7, hok⟩ := bind_eq_ok hok
      obtain ⟨t8, ht8, hok⟩ := bind_eq_ok hok
      obtain ⟨cc, hcc, hok⟩ := bind_eq_ok hok
      obtain ⟨p1, hp1, hok⟩ := bind_eq_ok hok
      obtain ⟨p2, hp2, hok⟩ := bind_eq_ok hok
      obtain rfl := Except.ok.inj hok
      have ecc := hc_create_ok_inv _ _ _ _ _ _ _ _ _ cc hcc
      have e1 := hc_ping_nofile_ok_inv _ _ _ _ _ _ _ p1 hp1
      have e2 := hc_ping_nofile_ok_inv _ _ _ _ _ _ _ p2 hp2
      refine ⟨?_, ⟨p1, ?_, ?_⟩, ?_⟩
      · intro c hc
        simp only [pingsOf_create, pingsOf_ping, pingsOf_nil, List.mem_cons,
          List.not_mem_nil, or_false] at hc
        rcases hc with rfl | rfl
        · rw [e1]; right; rfl
        · rw [e2]; left; rfl
      · simp only [pingsOf_create, pingsOf_ping, pingsOf_nil, List.mem_cons]
        exact Or.inl trivial
      · rw [e1]
      · intro cc2 hcc2
        simp only [createsOf_create, createsOf_ping, createsOf_nil, List.mem_cons,
          List.not_mem_nil, or_false] at hcc2
        subst hcc2
        rw [ecc]
        exact ⟨rfl, compositeName_ne_vmSlug ctx⟩
    · rw [if_neg hjq] at hok
      exact Except.noConfusion hok
  · -- pre-stop
    unfold mainDispatch at hok
    rw [h] at hok
    by_cases hjq : ctx.jqOk = true
    · rw [if_pos hjq, if_neg (by decide), if_neg (by decide), if_neg (by decide),
        if_pos (by decide)] at hok
      obtain ⟨p1, hp1, hok⟩ := bind_eq_ok hok
      obtain ⟨p2, hp2, hok⟩ := bind_eq_ok hok
      obtain rfl := Except.ok.inj hok
      have e1 := hc_ping_nofile_ok_inv _ _ _ _ _ _ _ p1 hp1
      have e2 := hc_ping_nofile_ok_inv _ _ _ _ _ _ _ p2 hp2
      refine ⟨?_, ⟨p1, ?_, ?_⟩, ?_⟩
      · intro c hc
        simp only [pingsOf_ping, pingsOf_nil, List.mem_cons, List.not_mem_nil,
          or_false] at hc
        rcases hc with rfl | rfl
        · rw [e1]; right; rfl
        · rw [e2]; left; rfl
      · simp only [pingsOf_ping, pingsOf_nil, List.mem_cons]
        exact Or.inl trivial
      · rw [e1]
      · intro cc2 hcc2
        simp only [createsOf_ping, createsOf_nil] at hcc2
        exact absurd hcc2 (List.not_mem_nil _)
    · rw [if_neg hjq] at hok
      exact Except.noConfusion hok
  · -- pre-restart
    unfold mainDispatch at hok
    rw [h] at hok
    by_cases hjq : ctx.jqOk = true
    · rw [if_pos hjq, if_neg (by decide), if_neg (by decide), if_neg (by decide),
        if_pos (by decide)] at hok
      obtain ⟨p1, hp1, hok⟩ := bind_eq_ok hok
      obtain ⟨p2, hp2, hok⟩ := bind_eq_ok hok
      obtain rfl := Except.ok.inj hok
      have e1 := hc_ping_nofile_ok_inv _ _ _ _ _ _ _ p1 hp1
      have e2 := hc_ping_nofile_ok_inv _ _ _ _ _ _ _ p2 hp2
      refine ⟨?_, ⟨p1, ?_, ?_⟩, ?_⟩
      · intro c hc
        simp only [pingsOf_ping, pingsOf_nil, List.mem_cons, List.not_mem_nil,
          or_false] at hc
        rcases hc with rfl | rfl
        · rw [e1]; right; rfl
        · rw [e2]; left; rfl
      · simp only [pingsOf_ping, pingsOf_nil, List.mem_cons]
        exact Or.inl trivial
      · rw [e1]
      · intro cc2 hcc2
        simp only [createsOf_ping, createsOf_nil] at hcc2
        exact absurd hcc2 (List.not_mem_nil _)
    · rw [if_neg hjq] at hok
      exact Except.noConfusion hok
  · -- post-restart
    unfold mainDispatch at hok
    rw [h] at hok
    by_cases hjq : ctx.jqOk = true
    · rw [if_pos hjq, if_neg (by decide), if_neg (by decide), if_neg (by decide),
        if_pos (by decide)] at hok
      obtain ⟨p1, hp1, hok⟩ := bind_eq_ok hok
      obtain ⟨p2, hp2, hok⟩ := bind_eq_ok hok
      obtain rfl := Except.ok.inj hok
      have e1 := hc_ping_nofile_ok_inv _ _ _ _ _ _ _ p1 hp1
      have e2 := hc_ping_nofile_ok_inv _ _ _ _ _ _ _ p2 hp2
      refine ⟨?_, ⟨p1, ?_, ?_⟩, ?_⟩
      · intro c hc
        simp only [pingsOf_ping, pingsOf_nil, List.mem_cons, List.not_mem_nil,
          or_false] at hc
        rcases hc with rfl | rfl
        · rw [e1]; right; rfl
        · rw [e2]; left; rfl
      · simp only [pingsOf_ping, pingsOf_nil, List.mem_cons]
        exact Or.inl trivial
      · rw [e1]
      · intro cc2 hcc2
        simp only [createsOf_ping, createsOf_nil] at hcc2
        exact absurd hcc2 (List.not_mem_nil _)
    · rw [if_neg hjq] at hok
      exact Except.noConfusion hok
  · -- backup-end
    unfold mainDispatch at hok
    rw [h] at hok
    by_cases hjq : ctx.jqOk = true
    · rw [if_pos hjq, if_neg (by decide), if_neg (by decide), if_neg (by decide),
        if_neg (by decide), if_pos rfl] at hok
      obtain ⟨p1, hp1, hok⟩ := bind_eq_ok hok
      obtain ⟨p2, hp2, hok⟩ := bind_eq_ok hok
      obtain rfl := Except.ok.inj hok
      have e1 := hc_ping_nofile_ok_inv _ _ _ _ _ _ _ p1 hp1
      have e2 := hc_ping_nofile_ok_inv _ _ _ _ _ _ _ p2 hp2
      refine ⟨?_, ⟨p1, ?_, ?_⟩, ?_⟩
      · intro c hc
        simp only [pingsOf_ping, pingsOf_nil, List.mem_cons, List.not_mem_nil,
          or_false] at hc
        rcases hc with rfl | rfl
        · rw [e1]; right; rfl
        · rw [e2]; left; rfl
      · simp only [pingsOf_ping, pingsOf_nil, List.mem_cons]
        exact Or.inl trivial
      · rw [e1]
      · intro cc2 hcc2
        simp only [createsOf_ping, createsOf_nil] at hcc2
        exact absurd hcc2 (List.not_mem_nil _)
    · rw [if_neg hjq] at hok
      exact Except.noConfusion hok
  · -- backup-abort
    unfold mainDispatch at hok
    rw [h] at hok
    by_cases hjq : ctx.jqOk = true
    · rw [if_pos hjq, if_neg (by decide), if_neg (by decide), if_neg (by decide),
        if_neg (by decide), if_neg (by decide), if_pos rfl] at hok
      obtain ⟨p1, hp1, hok⟩ := bind_eq_ok hok
      obtain ⟨p2, hp2, hok⟩ := bind_eq_ok hok
      obtain ⟨u, hu, hok⟩ := bind_eq_ok hok
      obtain rfl := Except.ok.inj hok
      have e1 := hc_ping_nofile_ok_inv _ _ _ _ _ _ _ p1 hp1
      have e2 := hc_ping_nofile_ok_inv _ _ _ _ _ _ _ p2 hp2
      refine ⟨?_, ⟨p1, ?_, ?_⟩, ?_⟩
      · intro c hc
        simp only [pingsOf_ping, pingsOf_lookup, pingsOf_appendErr, pingsOf_stdout,
          pingsOf_nil, List.mem_cons, List.not_mem_nil, or_false] at hc
        rcases hc with rfl | rfl
        · rw [e1]; right; rfl
        · rw [e2]; left; rfl
      · simp only [pingsOf_ping, pingsOf_lookup, pingsOf_appendErr, pingsOf_stdout,
          pingsOf_nil, List.mem_cons]
        exact Or.inl trivial
      · rw [e1]
      · intro cc2 hcc2
        simp only [createsOf_ping, createsOf_lookup, createsOf_appendErr,
          createsOf_stdout, createsOf_nil] at hcc2
        exact absurd hcc2 (List.not_mem_nil _)
    · rw [if_neg hjq] at hok
      exact Except.noConfusion hok
  · -- log-end
    unfold mainDispatch at hok
    rw [h] at hok
    by_cases hjq : ctx.jqOk = true
    · rw [if_pos hjq, if_neg (by decide), if_neg (by decide), if_neg (by decide),
        if_neg (by decide), if_neg (by decide), if_neg (by decide), if_pos rfl] at hok
      obtain ⟨p, hp, hok⟩ := bind_eq_ok hok
      obtain rfl := Except.ok.inj hok
      have e1 := hc_ping_nofile_ok_inv _ _ _ _ _ _ _ p hp
      refine ⟨?_, ⟨p, ?_, ?_⟩, ?_⟩
      · intro c hc
        simp only [pingsOf_ping, pingsOf_nil, List.mem_cons, List.not_mem_nil,
          or_false] at hc
        subst hc
        rw [e1]; right; rfl
      · simp only [pingsOf_ping, pingsOf_nil, List.mem_cons]
        exact Or.inl trivial
      · rw [e1]
      · intro cc2 hcc2
        simp only [createsOf_ping, createsOf_nil] at hcc2
        exact absurd hcc2 (List.not_mem_nil _)
    · rw [if_neg hjq] at hok
      exact Except.noConfusion hok
  · exact absurd h (List.not_mem_nil _)

/-- Sample context in phase pre-stop. -/
def ctx10 : Ctx := { ctxW with phase := "pre-stop".data }

/-- The trace of phase pre-stop in the sample context. -/
def tr10 : List Action :=
  [.ping (sentPing cfgW (slugSuffix ctx10) (vmSlugOf ctx10) "log".data (phaseBody ctx10)),
   .ping (sentPing cfgW (slugSuffix ctx10) hcHostSlug "log".data (phaseBody ctx10))]

/-- Witness for C10 at a concrete input. -/
theorem C10_guest_slug_witness :
    "pre-stop".data ∈ guestPhases ∧
    mainDispatch cfgW ctx10 = .ok tr10 ∧
    ((∀ c ∈ pingsOf tr10,
        c.slugArg = hcHostSlug ∨
        c.slugArg = ctx10.vmid ++ ['-'] ++ ctx10.vmtypeEnv.getD "unknown".data) ∧
     (∃ c ∈ pingsOf tr10,
        c.slugArg = ctx10.vmid ++ ['-'] ++ ctx10.vmtypeEnv.getD "unknown".data) ∧
     (∀ cc ∈ createsOf tr10,
        cc.slugArg = ctx10.vmid ++ ['-'] ++ ctx10.vmtypeEnv.getD "unknown".data ∧
        cc.name ≠ ctx10.vmid ++ ['-'] ++ ctx10.vmtypeEnv.getD "unknown".data)) :=
  ⟨by decide, by decide, C10_guest_slug cfgW ctx10 tr10 (by decide) (by decide)⟩

end VzdumpHook
